import Mathlib

/-!
# Rule evaluation and alarm engine of the ihs-backend repository

Shallow embedding of the alarm rule-evaluation core:

* `src/rules/parameter_mapper.py` — parameter alias resolution (`extract_value`)
* `src/rules/simple_rules.py` — single-condition rules and the comparator
* `src/rules/composite_rules.py` — AND/OR multi-condition rules
* `src/rules/historical_rules.py` — time-window aggregation rules
* `src/rules/rate_change_rules.py` — consecutive-reading delta rules
* `src/alarm_monitor.py` — rule dispatcher, batch driver, dedup guard call
* `src/database.py` — `has_active_composite_alarm` over the alarm store
* `src/services/alarm_monitor.py` — the background threshold monitor
  (`_compare`, the frequency branch of `_extract_value`, and the
  control flow of `evaluate_all_assets`)

Modelling conventions: Python floats are modelled as rationals (`ℚ`); the
0.01 epsilon of the comparator is the rational 1/100.  A reading (a Python
dict) is an association list from raw field names to `RawValue`; a value
that Python's `float(...)` would parse (a number, or a numeric string) is
`RawValue.num q`, a present-but-unparseable value is `RawValue.nonNumeric`,
and JSON null is `RawValue.null`.  The database is abstracted as explicit
arguments: the historical evaluator receives the `get_readings_window`
query as a function of the window size, the rate-change evaluator receives
the previous reading, and the deduplication guard operates on the list of
alarm rows.  Python string formatting `f"...{x:.2f}..."` is rendered with
`toString` (the numeric text differs; no theorem depends on it).
Exceptions are modelled with `Except String`.
-/

namespace IHS

/-- A raw field value inside a sensor reading dict.  `num q` is any value
that Python's `float(...)` accepts (a number or a numeric string),
`nonNumeric` is a present value that `float(...)` rejects with
`ValueError`/`TypeError`, and `null` is JSON null (`None`). -/
inductive RawValue where
  | num (q : ℚ)
  | nonNumeric
  | null
deriving DecidableEq, Repr

/-- A reading payload: a finite map (Python dict) from raw field names to
raw values.  Later bindings for a duplicate key are ignored, matching
dict-lookup semantics on the first binding. -/
abbrev Reading := List (String × RawValue)

/-- Field access plus numeric parse, shared by both resolvers: Python's
`field in reading and reading[field] is not None` followed by
`float(reading[field])`.  Missing fields, nulls, and parse failures all
yield `none` (the loops in the source `continue` in each of those cases;
the services-layer `first_number` reaches the same outcome because
`float(None)` raises `TypeError`, which it catches and skips). -/
def readField (reading : Reading) (field : String) : Option ℚ :=
  match reading.lookup field with
  | some (RawValue.num q) => some q
  | _ => none

/-- The `PARAMETER_MAP` alias table of src/rules/parameter_mapper.py:
logical parameter name to ordered candidate raw field names. -/
def PARAMETER_MAP : List (String × List String) := [
  ("fuel_level", ["fuel_level", "diesel_deep_cm"]),
  ("fuel_drop", ["fuel_level"]),
  ("voltage", ["voltage", "voltage_l1", "voltage_l2", "voltage_l3", "grid_voltage"]),
  ("voltage_l1", ["voltage_l1", "voltage_phase_1"]),
  ("voltage_l2", ["voltage_l2", "voltage_phase_2"]),
  ("voltage_l3", ["voltage_l3", "voltage_phase_3"]),
  ("current_sum", ["current_total", "load_current", "current_l1_l2_l3_sum"]),
  ("grid_frequency", ["frequency", "grid_frequency"]),
  ("grid_power", ["grid_power_kw", "ac_power"]),
  ("battery_voltage", ["battery_voltage", "dc_voltage", "System_DC_Voltage"]),
  ("battery_current", ["battery_current", "dc_current", "System_DC_Current"]),
  ("battery_power", ["battery_power_kw", "dc_power"]),
  ("solar_current", ["solar_current", "pv_current"]),
  ("solar_power", ["solar_power_kw", "pv_power"]),
  ("gen_voltage", ["gen_voltage", "generator_voltage", "voltage"]),
  ("gen_current", ["gen_current", "generator_current"]),
  ("gen_frequency", ["gen_frequency", "generator_frequency", "frequency"]),
  ("gen_power", ["gen_power_kw", "generator_power"]),
  ("temperature", ["temperature", "ambient_temp", "shelter_temp"]),
  ("tenant_consumption", ["tenant_power", "load_power", "consumption_kw"]),
  ("rectifier_power", ["rectifier_power", "output_power"])]

/-- `PARAMETER_MAP.get(parameter, [parameter])` of src/rules/parameter_mapper.py
line 42: the candidate fields for a parameter, falling back to the literal
parameter name when unregistered.  (The `isinstance(fields, str)` guard on
line 43 is dead code: every table entry is a list.) -/
def candidateFields (parameter : String) : List String :=
  (PARAMETER_MAP.lookup parameter).getD [parameter]

/-- The scan loop of `extract_value` (src/rules/parameter_mapper.py lines
46-52): return the first candidate field that is present, non-null, and
parseable; otherwise fall through to `None`. -/
def extractLoop (reading : Reading) : List String → Option ℚ
  | [] => none
  | field :: rest =>
    match readField reading field with
    | some q => some q
    | none => extractLoop reading rest

/-- `extract_value` from src/rules/parameter_mapper.py lines 40-52. -/
def extract_value (parameter : String) (reading : Reading) : Option ℚ :=
  extractLoop reading (candidateFields parameter)

/-- `SimpleRuleEvaluator.compare` from src/rules/simple_rules.py lines
35-49: the four order operators are native comparisons, `==`/`!=` use the
0.01 epsilon, and any other operator string yields `false`. -/
def compare (value : ℚ) (operator : String) (threshold : ℚ) : Bool :=
  if operator = "<=" then decide (value ≤ threshold)
  else if operator = "<" then decide (value < threshold)
  else if operator = ">=" then decide (value ≥ threshold)
  else if operator = ">" then decide (value > threshold)
  else if operator = "==" then decide (|value - threshold| < 1/100)
  else if operator = "!=" then decide (|value - threshold| ≥ 1/100)
  else false

/-- `RuleCondition` from src/models.py. -/
structure RuleCondition where
  parameter : String
  operator : String
  value : ℚ
  unit : String
  source : Option String := none
deriving DecidableEq, Repr

/-- `CompositeRule` from src/models.py (the per-rule location filters
`region_id`/`cluster_id`/`site_id` are never read by the evaluators and
are omitted). -/
structure CompositeRule where
  id : String
  name : String
  description : Option String := none
  severity : String
  category : String
  rule_type : String
  enabled : Bool := true
  conditions : List RuleCondition
  logical_operator : Option String := none
  time_window_minutes : Option Nat := none
  aggregation_type : Option String := none
  applies_to : String := "all"
deriving DecidableEq, Repr

/-- `EvaluationResult` from src/models.py. -/
structure EvaluationResult where
  triggered : Bool
  value : Option ℚ := none
  threshold : Option ℚ := none
  message : String
  reason : Option String := none
  conditions_met : Option Nat := none
  total_conditions : Option Nat := none
  samples : Option Nat := none
  rate_of_change : Option ℚ := none
deriving DecidableEq, Repr

/-- A row returned by `Database.get_readings_window` /
`Database.get_previous_reading`: the parsed `data` payload plus its
timestamp. -/
structure DbReading where
  data : Reading
  timestamp : String
deriving DecidableEq, Repr

/-- Python `x or default` on an optional integer (`None` and `0` are
falsy), as in `rule.time_window_minutes or 4320`. -/
def orElseNat (x : Option Nat) (default : Nat) : Nat :=
  match x with
  | some n => if n = 0 then default else n
  | none => default

/-- Python `x or default` on an optional string (`None` and `""` are
falsy), as in `rule.aggregation_type or 'avg'`. -/
def orElseStr (x : Option String) (default : String) : String :=
  match x with
  | some s => if s = "" then default else s
  | none => default

/-- The effective history window `rule.time_window_minutes or 4320`
(src/rules/historical_rules.py line 23; 4320 minutes = 3 days). -/
def windowMinutes (rule : CompositeRule) : Nat :=
  orElseNat rule.time_window_minutes 4320

/-- The effective aggregation type `rule.aggregation_type or 'avg'`
(src/rules/historical_rules.py line 39). -/
def aggName (rule : CompositeRule) : String :=
  orElseStr rule.aggregation_type "avg"

/-- `SimpleRuleEvaluator.evaluate` from src/rules/simple_rules.py lines
7-33. -/
def simpleEvaluate (rule : CompositeRule) (reading : Reading) : EvaluationResult :=
  match rule.conditions with
  | [] =>
    { triggered := false, message := "No conditions defined", reason := some "No conditions" }
  | condition :: _ =>
    match extract_value condition.parameter reading with
    | none =>
      { triggered := false, message := "No data for " ++ condition.parameter,
        reason := some "No data" }
    | some value =>
      let triggered := compare value condition.operator condition.value
      { triggered := triggered, value := some value, threshold := some condition.value,
        message :=
          if triggered then condition.parameter ++ " is " ++ toString value ++ " " ++ condition.unit
          else condition.parameter ++ " check passed" }

/-- The per-condition loop body of `CompositeRuleEvaluator.evaluate`
(src/rules/composite_rules.py lines 23-32): an unresolved parameter counts
as `false`, otherwise the comparator decides. -/
def conditionHolds (reading : Reading) (condition : RuleCondition) : Bool :=
  match extract_value condition.parameter reading with
  | none => false
  | some value => compare value condition.operator condition.value

/-- `CompositeRuleEvaluator.evaluate` from src/rules/composite_rules.py
lines 11-57. -/
def compositeEvaluate (rule : CompositeRule) (reading : Reading) : EvaluationResult :=
  match rule.conditions with
  | [] =>
    { triggered := false, message := "No conditions defined", reason := some "No conditions" }
  | _ :: _ =>
    let results := rule.conditions.map (conditionHolds reading)
    let triggered :=
      if rule.logical_operator = some "AND" then results.all id
      else if rule.logical_operator = some "OR" then results.any id
      else results.all id
    let conditions_met := results.count true
    let total_conditions := results.length
    { triggered := triggered, conditions_met := some conditions_met,
      total_conditions := some total_conditions,
      message :=
        if triggered then
          rule.name ++ ": " ++ toString conditions_met ++ "/" ++ toString total_conditions
            ++ " conditions met"
        else
          rule.name ++ ": Only " ++ toString conditions_met ++ "/" ++ toString total_conditions
            ++ " conditions met" }

/-- `HistoricalRuleEvaluator.calculate_aggregate` from
src/rules/historical_rules.py lines 68-94: resolve the parameter in every
reading, discard unresolved ones, and aggregate (Python `min(values)` /
`max(values)` are folds over the non-empty list). -/
def calculate_aggregate (readings : List DbReading) (parameter : String)
    (agg_type : String) : Option ℚ :=
  match readings.filterMap (fun r => extract_value parameter r.data) with
  | [] => none
  | v :: vs =>
    if agg_type = "avg" then some ((v :: vs).sum / ((v :: vs).length : ℚ))
    else if agg_type = "sum" then some (v :: vs).sum
    else if agg_type = "min" then some (vs.foldl min v)
    else if agg_type = "max" then some (vs.foldl max v)
    else some ((v :: vs).sum / ((v :: vs).length : ℚ))

/-- `HistoricalRuleEvaluator.evaluate` from src/rules/historical_rules.py
lines 13-66.  The database dependency `self.db.get_readings_window
(asset_id, minutes)` is abstracted as the function `getReadingsWindow`
applied to the effective window size. -/
def historicalEvaluate (getReadingsWindow : Nat → List DbReading)
    (rule : CompositeRule) : EvaluationResult :=
  match rule.conditions with
  | [] =>
    { triggered := false, message := "No conditions defined", reason := some "No conditions" }
  | condition :: _ =>
    let minutes := windowMinutes rule
    let readings := getReadingsWindow minutes
    if readings.length < 10 then
      { triggered := false,
        message := "Insufficient data: " ++ toString readings.length ++ " readings",
        reason := some "Insufficient data", samples := some readings.length }
    else
      match calculate_aggregate readings condition.parameter (aggName rule) with
      | none =>
        { triggered := false, message := "No valid data for " ++ condition.parameter,
          reason := some "No valid data", samples := some readings.length }
      | some aggregate_value =>
        let triggered := compare aggregate_value condition.operator condition.value
        { triggered := triggered, value := some aggregate_value,
          threshold := some condition.value, samples := some readings.length,
          message := (aggName rule).toUpper ++ " " ++ condition.parameter ++ " over "
            ++ toString (minutes / 60) ++ "h: " ++ toString aggregate_value ++ condition.unit }

/-- `RateChangeEvaluator.evaluate` from src/rules/rate_change_rules.py
lines 12-63.  The database dependency `self.db.get_previous_reading
(asset_id)` is abstracted as the `previousReading` argument. -/
def rateChangeEvaluate (previousReading : Option DbReading) (rule : CompositeRule)
    (current_reading : Reading) : EvaluationResult :=
  match rule.conditions with
  | [] =>
    { triggered := false, message := "No conditions defined", reason := some "No conditions" }
  | condition :: _ =>
    match previousReading with
    | none =>
      { triggered := false, message := "No previous reading available",
        reason := some "No previous reading" }
    | some prev_reading =>
      match extract_value condition.parameter current_reading,
            extract_value condition.parameter prev_reading.data with
      | some current_value, some prev_value =>
        let change := |current_value - prev_value|
        let direction := if current_value > prev_value then "increase" else "decrease"
        let triggered := compare change condition.operator condition.value
        let base := condition.parameter ++ " " ++ direction ++ " of " ++ toString change
          ++ condition.unit
        { triggered := triggered, value := some change, threshold := some condition.value,
          rate_of_change := some change,
          message :=
            if triggered then
              "ALERT: " ++ base ++ " exceeds threshold " ++ toString condition.value
                ++ condition.unit
            else base }
      | _, _ =>
        { triggered := false, message := "Missing data for " ++ condition.parameter,
          reason := some "Missing data" }

/-- The database queries that `AlarmMonitor.evaluate_rule` may consult,
abstracted as pure data: the time-window readings query and the previous
reading for the asset under evaluation. -/
structure DbEnv where
  getReadingsWindow : Nat → List DbReading
  previousReading : Option DbReading

/-- `AlarmMonitor.evaluate_rule` from src/alarm_monitor.py lines 58-82:
route on `rule.rule_type`, with the unknown-type fallback result. -/
def evaluateRule (env : DbEnv) (rule : CompositeRule) (reading : Reading) :
    EvaluationResult :=
  if rule.rule_type = "simple" then simpleEvaluate rule reading
  else if rule.rule_type = "composite" then compositeEvaluate rule reading
  else if rule.rule_type = "historical" then historicalEvaluate env.getReadingsWindow rule
  else if rule.rule_type = "rate_change" then rateChangeEvaluate env.previousReading rule reading
  else
    { triggered := false, message := "Unknown rule type: " ++ rule.rule_type,
      reason := some "Unknown rule type" }

namespace Services

/-- The `first_number` closure inside `AlarmMonitor._extract_value`
(src/services/alarm_monitor.py lines 213-220): the `float(...)` of the
first listed key whose value parses; keys that are absent or whose values
fail to parse (including `None`, where `float(None)` raises `TypeError`)
are skipped. -/
def first_number (reading : Reading) : List String → Option ℚ
  | [] => none
  | key :: rest =>
    match readField reading key with
    | some v => some v
    | none => first_number reading rest

/-- The raw field names tried by the frequency branch of
`AlarmMonitor._extract_value` (src/services/alarm_monitor.py line 263). -/
def frequencyKeys : List String := ["frequency", "AC_Frequency", "grid_frequency", "gen_frequency"]

/-- The frequency branch of `AlarmMonitor._extract_value`
(src/services/alarm_monitor.py lines 262-266), reached exactly when the
parameter is `frequency`, `grid_frequency`, or `gen_frequency` (none of
the earlier branches of `_extract_value` match those parameters): resolve
the raw value over `frequencyKeys` and divide by 10 when it exceeds 100. -/
def extract_frequency (reading : Reading) : Option ℚ :=
  match first_number reading frequencyKeys with
  | none => none
  | some raw => if raw > 100 then some (raw / 10) else some raw

/-- `AlarmMonitor._compare` from src/services/alarm_monitor.py lines
190-203: all six operators are native comparisons (no epsilon), and any
other operator string yields `false`. -/
def compare (value : ℚ) (condition : String) (threshold_value : ℚ) : Bool :=
  if condition = "<=" then decide (value ≤ threshold_value)
  else if condition = "<" then decide (value < threshold_value)
  else if condition = ">=" then decide (value ≥ threshold_value)
  else if condition = ">" then decide (value > threshold_value)
  else if condition = "==" then decide (value = threshold_value)
  else if condition = "!=" then decide (value ≠ threshold_value)
  else false

/-- Control-flow model of the inner threshold loop of
`AlarmMonitor.evaluate_all_assets` (src/services/alarm_monitor.py lines
67-87) for one asset.  `evalThreshold asset t` collapses one iteration —
`_should_evaluate_threshold`, `_evaluate_threshold`, `_is_duplicate_alarm`
and `_create_alarm` — into whether an alarm row was created for
`(asset, t)`, with `Except.error` standing for a Python exception escaping
the iteration.  Because the only `try`/`except` of `evaluate_all_assets`
wraps the entire pass (lines 31-93), an exception ends the whole pass: the
first component collects the alarms created before the exception and the
second component flags that the pass aborted. -/
def runThresholds (evalThreshold : Nat → String → Except String Bool) (asset : Nat) :
    List String → List (Nat × String) × Bool
  | [] => ([], false)
  | t :: rest =>
    match evalThreshold asset t with
    | Except.error _ => ([], true)
    | Except.ok created =>
      let r := runThresholds evalThreshold asset rest
      (if created then (asset, t) :: r.1 else r.1, r.2)

/-- Control-flow model of the asset loop of `AlarmMonitor.evaluate_all_assets`
(src/services/alarm_monitor.py lines 48-88): assets are processed in order
until the pass-level exception handler fires, after which no further asset
is examined. -/
def runAssets (evalThreshold : Nat → String → Except String Bool)
    (thresholds : List String) : List Nat → List (Nat × String) × Bool
  | [] => ([], false)
  | asset :: rest =>
    let r := runThresholds evalThreshold asset thresholds
    if r.2 then r
    else
      let r2 := runAssets evalThreshold thresholds rest
      (r.1 ++ r2.1, r2.2)

/-- `AlarmMonitor.evaluate_all_assets` (src/services/alarm_monitor.py lines
26-93), reduced to which alarm rows the pass creates: the single
surrounding `try`/`except` catches any exception (the pass never raises),
but everything after the failing iteration is skipped. -/
def evaluate_all_assets (evalThreshold : Nat → String → Except String Bool)
    (thresholds : List String) (assets : List Nat) : List (Nat × String) :=
  (runAssets evalThreshold thresholds assets).1

end Services

/-- Alarm lifecycle states (src/models.py `Alarm.status` and the statuses
queried by the deduplication guard; `resolved` and `archived` are the
terminal states). -/
inductive AlarmStatus where
  | active
  | acknowledged
  | resolved
  | archived
deriving DecidableEq, Repr

/-- The columns of an `alarms` row that the deduplication guard reads
(src/database.py lines 184-198). -/
structure AlarmRec where
  id : String
  asset_id : Nat
  composite_rule_id : String
  severity : String
  status : AlarmStatus
deriving DecidableEq, Repr

/-- The `(asset, rule, severity)` fingerprint match of the dedup query
(`WHERE asset_id = ? AND composite_rule_id = ? AND severity = ?`). -/
def matchesFingerprint (a : AlarmRec) (asset_id : Nat) (rule_id severity : String) : Bool :=
  decide (a.asset_id = asset_id) && decide (a.composite_rule_id = rule_id)
    && decide (a.severity = severity)

/-- The `status IN ('active', 'acknowledged')` filter of the dedup query. -/
def isNonTerminal (a : AlarmRec) : Bool :=
  decide (a.status = AlarmStatus.active) || decide (a.status = AlarmStatus.acknowledged)

/-- `Database.has_active_composite_alarm` from src/database.py lines
184-198: does any alarm row match the fingerprint with a non-terminal
status (`SELECT 1 ... LIMIT 1` is non-empty)? -/
def has_active_composite_alarm (alarms : List AlarmRec) (asset_id : Nat)
    (composite_rule_id severity : String) : Bool :=
  alarms.any (fun a => matchesFingerprint a asset_id composite_rule_id severity && isNonTerminal a)

/-- The guarded alarm-creation step for one triggering rule: the dedup
check of `AlarmMonitor.evaluate_all` (src/alarm_monitor.py lines 42-51)
followed by persisting the `status='active'` alarm built by
`create_alarm` (persisted by the caller via `Database.create_alarm`, as in
src/routers/composite_alarms.py lines 38-42). -/
def guardedCreate (alarms : List AlarmRec) (asset_id : Nat)
    (rule_id severity new_id : String) : List AlarmRec :=
  if has_active_composite_alarm alarms asset_id rule_id severity then alarms
  else
    { id := new_id, asset_id := asset_id, composite_rule_id := rule_id,
      severity := severity, status := AlarmStatus.active } :: alarms

/-- The deduplication invariant: at most one alarm row with a non-terminal
status per `(asset, rule, severity)` fingerprint. -/
def AtMostOneNonTerminal (alarms : List AlarmRec) : Prop :=
  ∀ (asset_id : Nat) (rule_id severity : String),
    alarms.countP
        (fun a => matchesFingerprint a asset_id rule_id severity && isNonTerminal a) ≤ 1

/-- The per-rule loop of `AlarmMonitor.evaluate_all` (src/alarm_monitor.py
lines 38-54): each rule is evaluated inside its own `try`/`except`
(modelled by the `Except`-valued `evalRuleF`); an exception skips just
that rule, a triggered non-duplicate result contributes an alarm, and the
loop always continues with the remaining rules. -/
def evaluate_all (evalRuleF : CompositeRule → Except String EvaluationResult)
    (isDuplicate : CompositeRule → Bool) :
    List CompositeRule → List (CompositeRule × EvaluationResult)
  | [] => []
  | rule :: rest =>
    match evalRuleF rule with
    | Except.error _ => evaluate_all evalRuleF isDuplicate rest
    | Except.ok result =>
      if result.triggered then
        if isDuplicate rule then evaluate_all evalRuleF isDuplicate rest
        else (rule, result) :: evaluate_all evalRuleF isDuplicate rest
      else evaluate_all evalRuleF isDuplicate rest

/-! ## Helper lemmas -/

/-- If no field of the candidate list resolves, the scan loop returns
`none`. -/
lemma extractLoop_eq_none {reading : Reading} {fields : List String}
    (h : ∀ f ∈ fields, readField reading f = none) :
    extractLoop reading fields = none := by
  induction fields with
  | nil => rfl
  | cons f rest ih =>
    have hf : readField reading f = none := h f (List.mem_cons_self f rest)
    simp only [extractLoop, hf]
    exact ih fun g hg => h g (List.mem_cons_of_mem f hg)

/-- A successful scan pinpoints the first resolving field: the candidate
list splits as `pre ++ f :: post` where `f` resolves to the returned value
and every earlier candidate fails to resolve. -/
lemma extractLoop_some_split {reading : Reading} {fields : List String} {v : ℚ}
    (h : extractLoop reading fields = some v) :
    ∃ pre f post, fields = pre ++ f :: post ∧ readField reading f = some v ∧
      ∀ g ∈ pre, readField reading g = none := by
  induction fields with
  | nil => simp [extractLoop] at h
  | cons f rest ih =>
    rw [extractLoop] at h
    cases hf : readField reading f with
    | some q =>
      rw [hf] at h
      refine ⟨[], f, rest, rfl, ?_, by simp⟩
      rw [hf]; exact h
    | none =>
      rw [hf] at h
      obtain ⟨pre, g, post, hsplit, hg, hpre⟩ := ih h
      refine ⟨f :: pre, g, post, by rw [hsplit]; rfl, hg, ?_⟩
      intro x hx
      rcases List.mem_cons.mp hx with rfl | hx'
      · exact hf
      · exact hpre x hx'

/-- Counting `true` in a mapped Boolean list is counting the predicate. -/
lemma count_true_map {α : Type} (p : α → Bool) (l : List α) :
    (l.map p).count true = l.countP p := by
  induction l with
  | nil => rfl
  | cons x xs ih =>
    cases hx : p x <;>
      simp [List.count_cons, List.countP_cons, hx, ih]

/-- The left fold of `min` over a list stays inside the list (with its
seed). -/
lemma foldl_min_mem {α : Type} [LinearOrder α] (vs : List α) (v : α) :
    vs.foldl min v ∈ v :: vs := by
  induction vs generalizing v with
  | nil => simp
  | cons x xs ih =>
    rw [List.foldl_cons]
    have h := ih (min v x)
    rcases List.mem_cons.mp h with h1 | h1
    · rw [h1]
      rcases min_choice v x with hm | hm
      · rw [hm]; exact List.mem_cons_self _ _
      · rw [hm]; exact List.mem_cons_of_mem _ (List.mem_cons_self _ _)
    · exact List.mem_cons_of_mem _ (List.mem_cons_of_mem _ h1)

/-- The left fold of `min` is a lower bound of the seed and the list. -/
lemma foldl_min_le {α : Type} [LinearOrder α] (vs : List α) (v : α) :
    ∀ x ∈ v :: vs, vs.foldl min v ≤ x := by
  induction vs generalizing v with
  | nil =>
    intro x hx
    rcases List.mem_cons.mp hx with rfl | hx'
    · exact le_refl x
    · simp at hx'
  | cons y ys ih =>
    intro x hx
    rw [List.foldl_cons]
    have hseed : ys.foldl min (min v y) ≤ min v y :=
      ih (min v y) (min v y) (List.mem_cons_self _ _)
    rcases List.mem_cons.mp hx with rfl | hx'
    · exact le_trans hseed (min_le_left _ _)
    · rcases List.mem_cons.mp hx' with rfl | hx''
      · exact le_trans hseed (min_le_right _ _)
      · exact ih (min v y) x (List.mem_cons_of_mem _ hx'')

/-- The left fold of `max` over a list stays inside the list (with its
seed). -/
lemma foldl_max_mem {α : Type} [LinearOrder α] (vs : List α) (v : α) :
    vs.foldl max v ∈ v :: vs := by
  induction vs generalizing v with
  | nil => simp
  | cons x xs ih =>
    rw [List.foldl_cons]
    have h := ih (max v x)
    rcases List.mem_cons.mp h with h1 | h1
    · rw [h1]
      rcases max_choice v x with hm | hm
      · rw [hm]; exact List.mem_cons_self _ _
      · rw [hm]; exact List.mem_cons_of_mem _ (List.mem_cons_self _ _)
    · exact List.mem_cons_of_mem _ (List.mem_cons_of_mem _ h1)

/-- The left fold of `max` is an upper bound of the seed and the list. -/
lemma le_foldl_max {α : Type} [LinearOrder α] (vs : List α) (v : α) :
    ∀ x ∈ v :: vs, x ≤ vs.foldl max v := by
  induction vs generalizing v with
  | nil =>
    intro x hx
    rcases List.mem_cons.mp hx with rfl | hx'
    · exact le_refl x
    · simp at hx'
  | cons y ys ih =>
    intro x hx
    rw [List.foldl_cons]
    have hseed : max v y ≤ ys.foldl max (max v y) :=
      ih (max v y) (max v y) (List.mem_cons_self _ _)
    rcases List.mem_cons.mp hx with rfl | hx'
    · exact le_trans (le_max_left _ _) hseed
    · rcases List.mem_cons.mp hx' with rfl | hx''
      · exact le_trans (le_max_right _ _) hseed
      · exact ih (max v y) x (List.mem_cons_of_mem _ hx'')

/-! ## Claim theorems -/

/-- C2 counterexample: the claim states that `compare(v,'==',t)` is true
iff `|v - t| < 0.01`, but the cited comparator `AlarmMonitor._compare`
(src/services/alarm_monitor.py) uses exact equality for `==`: at
`v = 50.005`, `t = 50` it returns `false` although `|v - t| < 0.01`. -/
theorem service_compare_exact_equality :
    Services.compare (50 + 1/200) "==" 50 = false ∧
    |(50 + 1/200 : ℚ) - 50| < 1/100 := by
  constructor
  · rw [show Services.compare (50 + 1/200) "==" 50
        = decide ((50 + 1/200 : ℚ) = 50) from rfl]
    norm_num
  · rw [show (50 + 1/200 : ℚ) - 50 = 1/200 by ring,
      abs_of_pos (by norm_num : (0 : ℚ) < 1/200)]
    norm_num

/-- C2 (amended): `SimpleRuleEvaluator.compare` matches the native
comparison on `<=`,`<`,`>=`,`>`, uses the 0.01 epsilon for `==` and its
negation for `!=`, and returns `false` on any other operator;
`AlarmMonitor._compare` matches the native comparison on all six
operators (exact `==`/`!=`, no epsilon) and returns `false` on any other
operator.  Neither can raise (both are total functions). -/
theorem compare_semantics (v t : ℚ) (op : String) :
    compare v "<=" t = decide (v ≤ t) ∧
    compare v "<" t = decide (v < t) ∧
    compare v ">=" t = decide (v ≥ t) ∧
    compare v ">" t = decide (v > t) ∧
    (compare v "==" t = true ↔ |v - t| < 1/100) ∧
    (compare v "!=" t = true ↔ ¬|v - t| < 1/100) ∧
    Services.compare v "<=" t = decide (v ≤ t) ∧
    Services.compare v "<" t = decide (v < t) ∧
    Services.compare v ">=" t = decide (v ≥ t) ∧
    Services.compare v ">" t = decide (v > t) ∧
    Services.compare v "==" t = decide (v = t) ∧
    Services.compare v "!=" t = decide (¬v = t) ∧
    (op ∉ ["<=", "<", ">=", ">", "==", "!="] →
      compare v op t = false ∧ Services.compare v op t = false) := by
  refine ⟨rfl, rfl, rfl, rfl, ?_, ?_, rfl, rfl, rfl, rfl, rfl, rfl, ?_⟩
  · simp [compare]
  · simp [compare]
  · intro h
    simp only [List.mem_cons, List.not_mem_nil, or_false, not_or] at h
    obtain ⟨h1, h2, h3, h4, h5, h6⟩ := h
    constructor
    · simp [compare, h1, h2, h3, h4, h5, h6]
    · simp [Services.compare, h1, h2, h3, h4, h5, h6]

/-- Witness for `compare_semantics` at `v = 1`, `t = 0`, `op = "@@"`. -/
theorem compare_semantics_witness :
    compare 1 "@@" 0 = false ∧ Services.compare 1 "@@" 0 = false := by
  obtain ⟨-, -, -, -, -, -, -, -, -, -, -, -, h⟩ := compare_semantics 1 0 "@@"
  exact h (by decide)

/-- C3 counterexample: the claim states the Parameter Resolver divides
frequency readings above 100 by 10, but the cited rules-layer resolver
`extract_value` (src/rules/parameter_mapper.py) applies no scaling: for
`grid_frequency` on a reading with `frequency = 505` it returns 505
itself, not 505/10. -/
theorem extract_value_frequency_uncorrected :
    extract_value "grid_frequency" [("frequency", RawValue.num 505)] = some 505 ∧
    (505 : ℚ) > 100 ∧ (505 : ℚ) ≠ 505 / 10 := by
  refine ⟨by decide, by norm_num, by norm_num⟩

/-- C3 (amended): the frequency unit-correction heuristic lives only in
the services-layer resolver `AlarmMonitor._extract_value`, whose frequency
branch divides the resolved raw value by 10 exactly when it exceeds 100;
the rules-layer resolver `extract_value` applies no implicit scaling: any
value it returns is the verbatim value of one of the parameter's
candidate fields. -/
theorem frequency_heuristic_by_layer (reading : Reading) (p : String) (raw v : ℚ)
    (hraw : Services.first_number reading Services.frequencyKeys = some raw)
    (hres : extract_value p reading = some v) :
    Services.extract_frequency reading = some (if raw > 100 then raw / 10 else raw) ∧
    ∃ f ∈ candidateFields p, readField reading f = some v := by
  constructor
  · simp only [Services.extract_frequency, hraw]
    split <;> rfl
  · obtain ⟨pre, f, post, hsplit, hf, -⟩ := extractLoop_some_split hres
    refine ⟨f, ?_, hf⟩
    rw [hsplit]
    exact List.mem_append_right _ (List.mem_cons_self _ _)

/-- Witness for `frequency_heuristic_by_layer`: reported value 505 is
scaled to 50.5 by the services resolver and returned verbatim by the
rules resolver. -/
theorem frequency_heuristic_by_layer_witness :
    Services.extract_frequency [("frequency", RawValue.num 505)] = some ((505 : ℚ) / 10) ∧
    ∃ f ∈ candidateFields "gen_frequency",
      readField [("frequency", RawValue.num 505)] f = some 505 := by
  have h := frequency_heuristic_by_layer [("frequency", RawValue.num 505)]
    "gen_frequency" 505 505 (by decide) (by decide)
  refine ⟨?_, h.2⟩
  rw [h.1, if_pos (by norm_num : (505 : ℚ) > 100)]

/-- C9: the resolver tries the alias table's ordered candidate list (the
parameter name itself when unregistered) and returns the value of the
first candidate that is present, non-null, and parseable as a number,
skipping all earlier non-qualifying candidates; when no candidate
qualifies it returns `none`.  It cannot throw: `extract_value` is a total
function into `Option ℚ`. -/
theorem extract_value_resolution (p : String) (reading : Reading) :
    (PARAMETER_MAP.lookup p = none → candidateFields p = [p]) ∧
    ((∀ f ∈ candidateFields p, readField reading f = none) →
      extract_value p reading = none) ∧
    (∀ v : ℚ, extract_value p reading = some v →
      ∃ pre f post, candidateFields p = pre ++ f :: post ∧
        readField reading f = some v ∧ ∀ g ∈ pre, readField reading g = none) := by
  refine ⟨?_, ?_, ?_⟩
  · intro h
    simp [candidateFields, h]
  · intro h
    exact extractLoop_eq_none h
  · intro v hv
    exact extractLoop_some_split hv

/-- Witness for `extract_value_resolution` on the unregistered parameter
`custom_param`. -/
theorem extract_value_resolution_witness :
    candidateFields "custom_param" = ["custom_param"] ∧
    extract_value "custom_param" [] = none ∧
    ∃ pre f post, candidateFields "custom_param" = pre ++ f :: post ∧
      readField [("custom_param", RawValue.num 7)] f = some 7 ∧
      ∀ g ∈ pre, readField [("custom_param", RawValue.num 7)] g = none := by
  obtain ⟨h1, -, -⟩ := extract_value_resolution "custom_param" []
  obtain ⟨-, -, h3⟩ := extract_value_resolution "custom_param"
    [("custom_param", RawValue.num 7)]
  refine ⟨h1 (by decide), ?_, h3 7 (by decide)⟩
  obtain ⟨-, h2, -⟩ := extract_value_resolution "custom_param" []
  exact h2 (by decide)

/-- C7: the rate-change evaluator returns reason "No previous reading"
when no reading precedes the current one, reason "Missing data" when the
condition's parameter is unresolved in either reading, and otherwise
compares `delta = |current - previous|` against the condition, reporting
`value = delta`, `rate_of_change = delta`, `threshold` = condition value. -/
theorem rate_change_semantics (prev : Option DbReading) (rule : CompositeRule)
    (reading : Reading) (c : RuleCondition) (cs : List RuleCondition)
    (hc : rule.conditions = c :: cs) :
    (rateChangeEvaluate none rule reading =
      { triggered := false, message := "No previous reading available",
        reason := some "No previous reading" }) ∧
    (∀ p, prev = some p →
      (extract_value c.parameter reading = none ∨
        extract_value c.parameter p.data = none) →
      rateChangeEvaluate prev rule reading =
        { triggered := false, message := "Missing data for " ++ c.parameter,
          reason := some "Missing data" }) ∧
    (∀ p cv pv, prev = some p →
      extract_value c.parameter reading = some cv →
      extract_value c.parameter p.data = some pv →
      (rateChangeEvaluate prev rule reading).triggered
          = compare |cv - pv| c.operator c.value ∧
      (rateChangeEvaluate prev rule reading).value = some |cv - pv| ∧
      (rateChangeEvaluate prev rule reading).rate_of_change = some |cv - pv| ∧
      (rateChangeEvaluate prev rule reading).threshold = some c.value) := by
  refine ⟨?_, ?_, ?_⟩
  · simp only [rateChangeEvaluate, hc]
  · intro p hp hdis
    subst hp
    cases hcur : extract_value c.parameter reading with
    | none =>
      cases hprev : extract_value c.parameter p.data with
      | none => simp only [rateChangeEvaluate, hc, hcur, hprev]
      | some pv => simp only [rateChangeEvaluate, hc, hcur, hprev]
    | some cv =>
      cases hprev : extract_value c.parameter p.data with
      | none => simp only [rateChangeEvaluate, hc, hcur, hprev]
      | some pv =>
        rcases hdis with h | h
        · rw [hcur] at h; simp at h
        · rw [hprev] at h; simp at h
  · intro p cv pv hp hcur hprev
    subst hp
    simp [rateChangeEvaluate, hc, hcur, hprev]

/-- Witness for `rate_change_semantics`: the spec example — current 50,
previous 30, operator `>` with threshold 10 gives delta 20 and triggers. -/
theorem rate_change_semantics_witness :
    (rateChangeEvaluate (some { data := [("fuel_level", RawValue.num 30)], timestamp := "t0" })
        { id := "r3", name := "fuel jump", severity := "critical", category := "Fuel",
          rule_type := "rate_change",
          conditions := [{ parameter := "fuel_drop", operator := ">", value := 10, unit := "L" }] }
        [("fuel_level", RawValue.num 50)]).triggered = true ∧
    (rateChangeEvaluate (some { data := [("fuel_level", RawValue.num 30)], timestamp := "t0" })
        { id := "r3", name := "fuel jump", severity := "critical", category := "Fuel",
          rule_type := "rate_change",
          conditions := [{ parameter := "fuel_drop", operator := ">", value := 10, unit := "L" }] }
        [("fuel_level", RawValue.num 50)]).rate_of_change = some 20 := by
  obtain ⟨-, -, h3⟩ := rate_change_semantics
    (some { data := [("fuel_level", RawValue.num 30)], timestamp := "t0" })
    { id := "r3", name := "fuel jump", severity := "critical", category := "Fuel",
      rule_type := "rate_change",
      conditions := [{ parameter := "fuel_drop", operator := ">", value := 10, unit := "L" }] }
    [("fuel_level", RawValue.num 50)]
    { parameter := "fuel_drop", operator := ">", value := 10, unit := "L" } [] rfl
  obtain ⟨ht, -, hr, -⟩ := h3
    { data := [("fuel_level", RawValue.num 30)], timestamp := "t0" } 50 30 rfl
    (by decide) (by decide)
  have habs : |(50 : ℚ) - 30| = 20 := by
    rw [show (50 : ℚ) - 30 = 20 by norm_num]
    exact abs_of_pos (by norm_num)
  rw [habs] at ht hr
  refine ⟨?_, hr⟩
  rw [ht, show IHS.compare 20 ">" 10 = decide ((20 : ℚ) > 10) from rfl]
  norm_num

/-- C8: the composite evaluator treats an unresolvable condition as
`false` (not an error), reports `conditions_met` as the number of
individually-true conditions and `total_conditions` as the number of
conditions, and combines per-condition results with AND (all true) when
`logical_operator` is `AND`, unset, or unrecognized, and with OR (any
true) when it is `OR`. -/
theorem composite_semantics (rule : CompositeRule) (reading : Reading)
    (c : RuleCondition) (cs : List RuleCondition) (hc : rule.conditions = c :: cs) :
    (∀ cond : RuleCondition, extract_value cond.parameter reading = none →
      conditionHolds reading cond = false) ∧
    (compositeEvaluate rule reading).conditions_met
        = some (rule.conditions.countP (conditionHolds reading)) ∧
    (compositeEvaluate rule reading).total_conditions = some rule.conditions.length ∧
    (rule.logical_operator ≠ some "OR" →
      ((compositeEvaluate rule reading).triggered = true ↔
        ∀ cond ∈ rule.conditions, conditionHolds reading cond = true)) ∧
    (rule.logical_operator = some "OR" →
      ((compositeEvaluate rule reading).triggered = true ↔
        ∃ cond ∈ rule.conditions, conditionHolds reading cond = true)) := by
  refine ⟨?_, ?_, ?_, ?_, ?_⟩
  · intro cond h
    simp [conditionHolds, h]
  · simp only [compositeEvaluate, hc]
    rw [count_true_map]
  · simp only [compositeEvaluate, hc, List.length_map]
  · intro hop
    by_cases hand : rule.logical_operator = some "AND" <;>
      simp [compositeEvaluate, hc, hand, hop, List.all_map, List.all_eq_true,
        Function.comp]
  · intro hop
    simp [compositeEvaluate, hc, hop, List.any_map, List.any_eq_true, Function.comp]

/-- Witness for `composite_semantics`: the spec example — conditions
`voltage >= 174` and `current_sum > 3` against reading
`{voltage: 220, current_total: 5}`. -/
theorem composite_semantics_witness :
    (compositeEvaluate
        { id := "r2", name := "grid ok", severity := "warning", category := "Grid",
          rule_type := "composite",
          conditions := [{ parameter := "voltage", operator := ">=", value := 174, unit := "V" },
            { parameter := "current_sum", operator := ">", value := 3, unit := "A" }] }
        [("voltage", RawValue.num 220), ("current_total", RawValue.num 5)]).conditions_met
      = some (List.countP
          (conditionHolds [("voltage", RawValue.num 220), ("current_total", RawValue.num 5)])
          [{ parameter := "voltage", operator := ">=", value := 174, unit := "V" },
            { parameter := "current_sum", operator := ">", value := 3, unit := "A" }]) := by
  obtain ⟨-, h2, -, -, -⟩ := composite_semantics
    { id := "r2", name := "grid ok", severity := "warning", category := "Grid",
      rule_type := "composite",
      conditions := [{ parameter := "voltage", operator := ">=", value := 174, unit := "V" },
        { parameter := "current_sum", operator := ">", value := 3, unit := "A" }] }
    [("voltage", RawValue.num 220), ("current_total", RawValue.num 5)]
    { parameter := "voltage", operator := ">=", value := 174, unit := "V" }
    [{ parameter := "current_sum", operator := ">", value := 3, unit := "A" }] rfl
  exact h2

/-- C5: the historical evaluator defaults the window to 4320 minutes (3
days) when `time_window_minutes` is unset, returns reason "Insufficient
data" with `samples` = the number of readings when the window holds fewer
than 10 readings, and returns reason "No valid data" with `samples` = the
number of readings when at least 10 readings exist but the condition's
parameter resolves in none of them.  Both are ordinary results of the
total function (no error is raised). -/
theorem historical_guard_semantics (getR : Nat → List DbReading) (rule : CompositeRule)
    (c : RuleCondition) (cs : List RuleCondition) (hc : rule.conditions = c :: cs) :
    (rule.time_window_minutes = none → windowMinutes rule = 4320) ∧
    ((getR (windowMinutes rule)).length < 10 →
      historicalEvaluate getR rule =
        { triggered := false,
          message := "Insufficient data: " ++ toString (getR (windowMinutes rule)).length
            ++ " readings",
          reason := some "Insufficient data",
          samples := some (getR (windowMinutes rule)).length }) ∧
    (10 ≤ (getR (windowMinutes rule)).length →
      (∀ r ∈ getR (windowMinutes rule), extract_value c.parameter r.data = none) →
      historicalEvaluate getR rule =
        { triggered := false, message := "No valid data for " ++ c.parameter,
          reason := some "No valid data",
          samples := some (getR (windowMinutes rule)).length }) := by
  refine ⟨?_, ?_, ?_⟩
  · intro h
    simp [windowMinutes, orElseNat, h]
  · intro hlen
    simp [historicalEvaluate, hc, hlen]
  · intro hlen hnone
    have hfm : (getR (windowMinutes rule)).filterMap
        (fun r => extract_value c.parameter r.data) = [] :=
      List.filterMap_eq_nil_iff.mpr hnone
    have hagg : calculate_aggregate (getR (windowMinutes rule)) c.parameter
        (aggName rule) = none := by
      simp only [calculate_aggregate, hfm]
    have hnlt : ¬(getR (windowMinutes rule)).length < 10 := by omega
    simp [historicalEvaluate, hc, hagg, hnlt]

/-- Witness for `historical_guard_semantics`: an empty window under the
default 4320-minute window yields the insufficient-data result. -/
theorem historical_guard_semantics_witness :
    windowMinutes
      { id := "h1", name := "hist", severity := "warning", category := "Temperature",
        rule_type := "historical",
        conditions := [{ parameter := "temperature", operator := ">", value := 35, unit := "C" }] }
      = 4320 ∧
    historicalEvaluate (fun _ => [])
      { id := "h1", name := "hist", severity := "warning", category := "Temperature",
        rule_type := "historical",
        conditions := [{ parameter := "temperature", operator := ">", value := 35, unit := "C" }] }
      = { triggered := false, message := "Insufficient data: 0 readings",
          reason := some "Insufficient data", samples := some 0 } := by
  have h := historical_guard_semantics (fun _ => [])
    { id := "h1", name := "hist", severity := "warning", category := "Temperature",
      rule_type := "historical",
      conditions := [{ parameter := "temperature", operator := ">", value := 35, unit := "C" }] }
    { parameter := "temperature", operator := ">", value := 35, unit := "C" } [] rfl
  refine ⟨h.1 rfl, ?_⟩
  rw [h.2.1 (by decide)]
  decide

/-- C6: with at least 10 readings of which at least one resolves, the
historical evaluator aggregates the resolved values — arithmetic mean for
`avg` and for an unset or unrecognized aggregation type, sum for `sum`,
minimum for `min`, maximum for `max` — compares the aggregate against the
condition's operator and threshold, and reports `value` = aggregate,
`threshold` = condition value, and `samples` = total readings examined
(not just the resolved count). -/
theorem historical_aggregate_semantics (getR : Nat → List DbReading)
    (rule : CompositeRule) (c : RuleCondition) (cs : List RuleCondition)
    (v0 : ℚ) (vs : List ℚ) (hc : rule.conditions = c :: cs)
    (hlen : 10 ≤ (getR (windowMinutes rule)).length)
    (hvals : (getR (windowMinutes rule)).filterMap
        (fun r => extract_value c.parameter r.data) = v0 :: vs) :
    ∃ w, historicalEvaluate getR rule =
        { triggered := compare w c.operator c.value, value := some w,
          threshold := some c.value, samples := some (getR (windowMinutes rule)).length,
          message := (aggName rule).toUpper ++ " " ++ c.parameter ++ " over "
            ++ toString (windowMinutes rule / 60) ++ "h: " ++ toString w ++ c.unit } ∧
      (aggName rule ∉ ["sum", "min", "max"] →
        w = (v0 :: vs).sum / ((v0 :: vs).length : ℚ)) ∧
      (aggName rule = "sum" → w = (v0 :: vs).sum) ∧
      (aggName rule = "min" → w ∈ v0 :: vs ∧ ∀ x ∈ v0 :: vs, w ≤ x) ∧
      (aggName rule = "max" → w ∈ v0 :: vs ∧ ∀ x ∈ v0 :: vs, x ≤ w) := by
  have hnlt : ¬(getR (windowMinutes rule)).length < 10 := by omega
  by_cases hs : aggName rule = "sum"
  · have hagg : calculate_aggregate (getR (windowMinutes rule)) c.parameter
        (aggName rule) = some (v0 :: vs).sum := by
      simp [calculate_aggregate, hvals, hs]
    refine ⟨(v0 :: vs).sum, ?_, ?_, fun _ => rfl, ?_, ?_⟩
    · simp [historicalEvaluate, hc, hagg, hnlt]
    · intro h; exact absurd (by simp [hs]) h
    · intro h; rw [hs] at h; simp at h
    · intro h; rw [hs] at h; simp at h
  · by_cases hm : aggName rule = "min"
    · have hagg : calculate_aggregate (getR (windowMinutes rule)) c.parameter
          (aggName rule) = some (vs.foldl min v0) := by
        simp [calculate_aggregate, hvals, hm]
      refine ⟨vs.foldl min v0, ?_, ?_, ?_,
        fun _ => ⟨foldl_min_mem vs v0, foldl_min_le vs v0⟩, ?_⟩
      · simp [historicalEvaluate, hc, hagg, hnlt]
      · intro h; exact absurd (by simp [hm]) h
      · intro h; rw [hm] at h; simp at h
      · intro h; rw [hm] at h; simp at h
    · by_cases hx : aggName rule = "max"
      · have hagg : calculate_aggregate (getR (windowMinutes rule)) c.parameter
            (aggName rule) = some (vs.foldl max v0) := by
          simp [calculate_aggregate, hvals, hx]
        refine ⟨vs.foldl max v0, ?_, ?_, ?_, ?_,
          fun _ => ⟨foldl_max_mem vs v0, le_foldl_max vs v0⟩⟩
        · simp [historicalEvaluate, hc, hagg, hnlt]
        · intro h; exact absurd (by simp [hx]) h
        · intro h; rw [hx] at h; simp at h
        · intro h; rw [hx] at h; simp at h
      · have hagg : calculate_aggregate (getR (windowMinutes rule)) c.parameter
            (aggName rule) = some ((v0 :: vs).sum / ((v0 :: vs).length : ℚ)) := by
          by_cases ha : aggName rule = "avg" <;>
            simp [calculate_aggregate, hvals, ha, hs, hm, hx]
        refine ⟨(v0 :: vs).sum / ((v0 :: vs).length : ℚ), ?_, fun _ => rfl, ?_, ?_, ?_⟩
        · simp [historicalEvaluate, hc, hagg, hnlt]
        · intro h; exact absurd h hs
        · intro h; exact absurd h hm
        · intro h; exact absurd h hx

/-- Witness for `historical_aggregate_semantics`: 12 readings of
`temperature = 40` under the default `avg` aggregation. -/
theorem historical_aggregate_semantics_witness :
    (historicalEvaluate
        (fun _ => List.replicate 12 { data := [("temperature", RawValue.num 40)], timestamp := "t" })
        { id := "h2", name := "hot", severity := "warning", category := "Temperature",
          rule_type := "historical",
          conditions := [{ parameter := "temperature", operator := ">", value := 35, unit := "C" }] }).samples
      = some 12 ∧
    (historicalEvaluate
        (fun _ => List.replicate 12 { data := [("temperature", RawValue.num 40)], timestamp := "t" })
        { id := "h2", name := "hot", severity := "warning", category := "Temperature",
          rule_type := "historical",
          conditions := [{ parameter := "temperature", operator := ">", value := 35, unit := "C" }] }).threshold
      = some 35 := by
  obtain ⟨w, hrec, -, -, -, -⟩ := historical_aggregate_semantics
    (fun _ => List.replicate 12 { data := [("temperature", RawValue.num 40)], timestamp := "t" })
    { id := "h2", name := "hot", severity := "warning", category := "Temperature",
      rule_type := "historical",
      conditions := [{ parameter := "temperature", operator := ">", value := 35, unit := "C" }] }
    { parameter := "temperature", operator := ">", value := 35, unit := "C" } []
    40 (List.replicate 11 40) rfl (by decide) (by decide)
  rw [hrec]
  exact ⟨by simp, rfl⟩

/-- C10: for rules of type `simple`, `historical`, or `rate_change` with a
non-empty conditions list, only the first condition affects the result:
any change to the tail of the conditions list leaves the dispatcher's
`EvaluationResult` unchanged. -/
theorem first_condition_only (env : DbEnv) (rule : CompositeRule) (reading : Reading)
    (c : RuleCondition) (t1 t2 : List RuleCondition)
    (hty : rule.rule_type = "simple" ∨ rule.rule_type = "historical" ∨
      rule.rule_type = "rate_change") :
    evaluateRule env { rule with conditions := c :: t1 } reading =
      evaluateRule env { rule with conditions := c :: t2 } reading := by
  rcases hty with h | h | h <;>
    simp [evaluateRule, h, simpleEvaluate, historicalEvaluate, rateChangeEvaluate,
      windowMinutes, aggName, orElseNat, orElseStr]

/-- Witness for `first_condition_only`: a simple rule with a modified
second condition evaluates identically. -/
theorem first_condition_only_witness :
    evaluateRule { getReadingsWindow := fun _ => [], previousReading := none }
        { id := "s1", name := "fuel low", severity := "critical", category := "Fuel",
          rule_type := "simple",
          conditions := [{ parameter := "fuel_level", operator := "<=", value := 10, unit := "L" },
            { parameter := "voltage", operator := ">", value := 1, unit := "V" }] }
        [("fuel_level", RawValue.num 8)]
      = evaluateRule { getReadingsWindow := fun _ => [], previousReading := none }
        { id := "s1", name := "fuel low", severity := "critical", category := "Fuel",
          rule_type := "simple",
          conditions := [{ parameter := "fuel_level", operator := "<=", value := 10, unit := "L" }] }
        [("fuel_level", RawValue.num 8)] := by
  exact first_condition_only
    { getReadingsWindow := fun _ => [], previousReading := none }
    { id := "s1", name := "fuel low", severity := "critical", category := "Fuel",
      rule_type := "simple",
      conditions := [{ parameter := "fuel_level", operator := "<=", value := 10, unit := "L" }] }
    [("fuel_level", RawValue.num 8)]
    { parameter := "fuel_level", operator := "<=", value := 10, unit := "L" }
    [{ parameter := "voltage", operator := ">", value := 1, unit := "V" }] []
    (Or.inl rfl)

/-- A false guard means no alarm in the store matches the fingerprint
with a non-terminal status. -/
lemma countP_open_eq_zero_of_guard_false {alarms : List AlarmRec} {asset_id : Nat}
    {rule_id severity : String}
    (h : has_active_composite_alarm alarms asset_id rule_id severity = false) :
    alarms.countP
      (fun a => matchesFingerprint a asset_id rule_id severity && isNonTerminal a) = 0 := by
  rw [List.countP_eq_zero]
  intro a ha
  simp only [has_active_composite_alarm] at h
  exact List.any_eq_false.mp h a ha

/-- The alarm row inserted by the guarded step matches its own fingerprint
and is non-terminal. -/
lemma new_alarm_open (asset_id : Nat) (rule_id severity new_id : String) :
    (matchesFingerprint
        { id := new_id, asset_id := asset_id, composite_rule_id := rule_id,
          severity := severity, status := AlarmStatus.active } asset_id rule_id severity
      && isNonTerminal
        { id := new_id, asset_id := asset_id, composite_rule_id := rule_id,
          severity := severity, status := AlarmStatus.active }) = true := by
  simp [matchesFingerprint, isNonTerminal]

/-- C1: the deduplication guard preserves the at-most-one-non-terminal
invariant per `(asset, rule, severity)` fingerprint; when a matching
`active`/`acknowledged` alarm exists a triggering evaluation creates
nothing; and when every matching alarm is `resolved` or `archived` a
triggering evaluation creates exactly one new (active) alarm for the
fingerprint. -/
theorem dedup_guard_invariant (alarms : List AlarmRec) (asset_id : Nat)
    (rule_id severity new_id : String) (hinv : AtMostOneNonTerminal alarms) :
    AtMostOneNonTerminal (guardedCreate alarms asset_id rule_id severity new_id) ∧
    (has_active_composite_alarm alarms asset_id rule_id severity = true →
      guardedCreate alarms asset_id rule_id severity new_id = alarms) ∧
    ((∀ a ∈ alarms, matchesFingerprint a asset_id rule_id severity = true →
        a.status = AlarmStatus.resolved ∨ a.status = AlarmStatus.archived) →
      (guardedCreate alarms asset_id rule_id severity new_id).countP
          (fun a => matchesFingerprint a asset_id rule_id severity && isNonTerminal a) = 1 ∧
      (guardedCreate alarms asset_id rule_id severity new_id).length
        = alarms.length + 1) := by
  refine ⟨?_, ?_, ?_⟩
  · intro aid rid sev
    by_cases hg : has_active_composite_alarm alarms asset_id rule_id severity = true
    · simpa [guardedCreate, hg] using hinv aid rid sev
    · have hg' : has_active_composite_alarm alarms asset_id rule_id severity = false :=
        Bool.eq_false_iff.mpr hg
      simp only [guardedCreate, hg', Bool.false_eq_true, if_false, List.countP_cons]
      by_cases hq : asset_id = aid ∧ rule_id = rid ∧ severity = sev
      · obtain ⟨rfl, rfl, rfl⟩ := hq
        rw [countP_open_eq_zero_of_guard_false hg',
          if_pos (new_alarm_open asset_id rule_id severity new_id)]
      · have hnew : (matchesFingerprint
            { id := new_id, asset_id := asset_id, composite_rule_id := rule_id,
              severity := severity, status := AlarmStatus.active } aid rid sev
              && isNonTerminal
                { id := new_id, asset_id := asset_id, composite_rule_id := rule_id,
                  severity := severity, status := AlarmStatus.active }) = false := by
          simp only [matchesFingerprint, isNonTerminal]
          rcases not_and_or.mp hq with h | h
          · simp [h]
          · rcases not_and_or.mp h with h2 | h2 <;> simp [h2]
        rw [hnew]
        simpa using hinv aid rid sev
  · intro h
    simp [guardedCreate, h]
  · intro hall
    have hP : ∀ a ∈ alarms,
        (matchesFingerprint a asset_id rule_id severity && isNonTerminal a) = false := by
      intro a ha
      by_cases hm : matchesFingerprint a asset_id rule_id severity = true
      · rcases hall a ha hm with hst | hst <;> simp [hm, isNonTerminal, hst]
      · simp [Bool.eq_false_iff.mpr hm]
    have hguard : has_active_composite_alarm alarms asset_id rule_id severity = false := by
      simp only [has_active_composite_alarm, List.any_eq_false]
      intro a ha
      simp [hP a ha]
    constructor
    · simp only [guardedCreate, hguard, Bool.false_eq_true, if_false, List.countP_cons]
      rw [countP_open_eq_zero_of_guard_false hguard,
        if_pos (new_alarm_open asset_id rule_id severity new_id)]
    · simp [guardedCreate, hguard]

/-- Witness for `dedup_guard_invariant`: a store holding one `resolved`
alarm for the fingerprint admits exactly one new alarm. -/
theorem dedup_guard_invariant_witness :
    (guardedCreate
        [{ id := "a1", asset_id := 1, composite_rule_id := "battery_low",
           severity := "critical", status := AlarmStatus.resolved }]
        1 "battery_low" "critical" "a2").countP
      (fun a => matchesFingerprint a 1 "battery_low" "critical" && isNonTerminal a) = 1 ∧
    (guardedCreate
        [{ id := "a1", asset_id := 1, composite_rule_id := "battery_low",
           severity := "critical", status := AlarmStatus.resolved }]
        1 "battery_low" "critical" "a2").length = 2 := by
  have h := dedup_guard_invariant
    [{ id := "a1", asset_id := 1, composite_rule_id := "battery_low",
       severity := "critical", status := AlarmStatus.resolved }]
    1 "battery_low" "critical" "a2"
    (fun aid rid sev => le_trans (List.countP_le_length _) (by decide))
  exact h.2.2 (by decide)

/-- C4 counterexample: the claim states that an exception thrown inside an
individual evaluator lets evaluation continue with the remaining rules and
remaining assets, but `AlarmMonitor.evaluate_all_assets`
(src/services/alarm_monitor.py) wraps the entire pass in a single
`try`/`except`: an evaluator failure on the first threshold of the first
asset yields an empty pass — the second asset is never evaluated even
though its evaluator would have reported a violation. -/
theorem evaluate_all_assets_aborts :
    Services.evaluate_all_assets
        (fun asset t => if asset = 0 ∧ t = "t0" then Except.error "boom" else Except.ok true)
        ["t0", "t1"] [0, 1] = [] ∧
    (fun (asset : Nat) (t : String) =>
        if asset = 0 ∧ t = "t0" then (Except.error "boom" : Except String Bool)
        else Except.ok true) 1 "t1" = Except.ok true := by
  constructor <;> rfl

/-- C4 (amended): the dispatcher maps an unknown rule type to the
`{triggered: false, message: "Unknown rule type: X", reason: "Unknown rule
type"}` result without raising; the per-reading driver
`AlarmMonitor.evaluate_all` catches a per-rule exception and continues
with the remaining rules; the batch service driver
`AlarmMonitor.evaluate_all_assets` catches exceptions only around the
entire pass, so an evaluator exception ends the pass early (without
raising) instead of continuing with the remaining thresholds and assets. -/
theorem dispatcher_and_error_boundaries (env : DbEnv) (rule : CompositeRule)
    (reading : Reading) (evalRuleF : CompositeRule → Except String EvaluationResult)
    (isDup : CompositeRule → Bool) (rules : List CompositeRule) (e : String)
    (evalThreshold : Nat → String → Except String Bool) (thresholds : List String)
    (assets : List Nat) (a : Nat) (al : List (Nat × String))
    (hunknown : rule.rule_type ∉ ["simple", "composite", "historical", "rate_change"])
    (herr : evalRuleF rule = Except.error e)
    (habort : Services.runThresholds evalThreshold a thresholds = (al, true)) :
    evaluateRule env rule reading =
      { triggered := false, message := "Unknown rule type: " ++ rule.rule_type,
        reason := some "Unknown rule type" } ∧
    evaluate_all evalRuleF isDup (rule :: rules) = evaluate_all evalRuleF isDup rules ∧
    Services.evaluate_all_assets evalThreshold thresholds (a :: assets) = al := by
  refine ⟨?_, ?_, ?_⟩
  · simp only [List.mem_cons, List.not_mem_nil, or_false, not_or] at hunknown
    obtain ⟨h1, h2, h3, h4⟩ := hunknown
    simp [evaluateRule, h1, h2, h3, h4]
  · simp [evaluate_all, herr]
  · simp [Services.evaluate_all_assets, Services.runAssets, habort]

/-- Witness for `dispatcher_and_error_boundaries` at a `mystery` rule, an
always-failing evaluator, and a single-asset pass. -/
theorem dispatcher_and_error_boundaries_witness :
    evaluateRule { getReadingsWindow := fun _ => [], previousReading := none }
        { id := "m", name := "m", severity := "info", category := "Misc",
          rule_type := "mystery", conditions := [] } []
      = { triggered := false, message := "Unknown rule type: mystery",
          reason := some "Unknown rule type" } ∧
    evaluate_all (fun _ => (Except.error "x" : Except String EvaluationResult))
        (fun _ => false)
        [{ id := "m", name := "m", severity := "info", category := "Misc",
            rule_type := "mystery", conditions := [] }] = [] ∧
    Services.evaluate_all_assets (fun _ _ => (Except.error "x" : Except String Bool))
        ["t0"] [0] = [] := by
  have h := dispatcher_and_error_boundaries
    { getReadingsWindow := fun _ => [], previousReading := none }
    { id := "m", name := "m", severity := "info", category := "Misc",
      rule_type := "mystery", conditions := [] } []
    (fun _ => (Except.error "x" : Except String EvaluationResult)) (fun _ => false) []
    "x" (fun _ _ => (Except.error "x" : Except String Bool)) ["t0"] [] 0 []
    (by decide) rfl rfl
  refine ⟨?_, h.2.1, h.2.2⟩
  rw [h.1]
  rfl

end IHS
